import Mathlib

/-
Verification development for the kangas service supervisor and presenter
(`backend/kangas/__init__.py`).

The Python module is shallowly embedded:
  * a scanned OS process (as seen through the psutil handle API) becomes the
    structure `PyProc`, whose fallible attribute lookups (`name()`,
    `cmdline()`) are `Except Unit` values, mirroring the fact that psutil
    raises on a vanished or access-denied process;
  * `_is_running`, `_process_method` (specialised to the `terminate` method)
    and `terminate` become functions over a list of `PyProc` in
    pid-enumeration order, returning `Except Unit` results: `Except.error`
    models an uncaught Python exception propagating out of the function;
  * `launch` and `show` become pure functions producing an event trace
    (terminate call, proxy acquisition, child spawn, sleep) plus the values
    they build; the collaborators from `kangas.utils` (`get_localhost`,
    `_in_colab_environment`, `_in_jupyter_environment`) are abstracted as an
    environment record consulted, not computed, by the embedded code;
  * `urllib.parse.urlencode` is embedded byte-for-byte (quote_plus rules) so
    that the URL-encoding scenario can be computed.
-/

deriving instance DecidableEq for Except

namespace Kangas

/-- Python substring test `needle in haystack` on the exploded character
list: true iff `needle` occurs contiguously. -/
def strContainsAux (needle : List Char) : List Char → Bool
  | [] => needle.isEmpty
  | c :: rest => needle.isPrefixOf (c :: rest) || strContainsAux needle rest

/-- Python `needle in haystack` for strings. -/
def strContains (haystack needle : String) : Bool :=
  strContainsAux needle.toList haystack.toList

/-- Python `s.startswith(pre)` for strings. -/
def strStartsWith (s pre : String) : Bool :=
  pre.toList.isPrefixOf s.toList

/-- psutil process status; only the zombie distinction matters to the code
(`process.status() != psutil.STATUS_ZOMBIE`). -/
inductive ProcStatus
  | running
  | sleeping
  | zombie
  | dead
  deriving DecidableEq, Repr

/-- One OS process as seen through a psutil handle during a scan.
`ctorOk` is whether `psutil.Process(pid)` succeeds (it raises for a pid that
vanished between `psutil.pids()` and the construction); `nameRes` and
`cmdlineRes` are the results of `process.name()` / `process.cmdline()`,
`Except.error ()` standing for a raised exception (access denied, process
exited); `isRunningRes` and `statusRes` are the results of
`process.is_running()` / `process.status()`; `terminateRes` is the outcome
of invoking `process.terminate()`. -/
structure PyProc where
  pid : Nat
  ctorOk : Bool
  nameRes : Except Unit String
  cmdlineRes : Except Unit (List String)
  isRunningRes : Bool
  statusRes : ProcStatus
  terminateRes : Except Unit Unit

/-- What one iteration of the scanning loops of `_is_running` /
`_process_method` does with one process, before the match action. -/
inductive StepOutcome
  | skip
  | raise
  | matched
  deriving DecidableEq, Repr

/-- One iteration of the shared loop body
```
try: process = psutil.Process(pid)
except Exception: continue
if process.name().startswith(name) and command in " ".join(process.cmdline()):
    <act and return>
```
`skip` is `continue` / a failed match, `raise` is an exception escaping the
(too narrow) `try`, `matched` means the `if` condition held. Evaluation
order mirrors Python: `name()` first; `cmdline()` only when the prefix test
passed (short-circuit `and`). -/
def stepOutcome (name command : String) (p : PyProc) : StepOutcome :=
  if p.ctorOk = false then .skip
  else
    match p.nameRes with
    | .error _ => .raise
    | .ok nm =>
      if strStartsWith nm name then
        match p.cmdlineRes with
        | .error _ => .raise
        | .ok cl =>
          if strContains (String.intercalate " " cl) command then .matched
          else .skip
      else .skip

/-- `_is_running(name, command)`: walks the pid list; on the first matching
process returns `process.is_running() and process.status() != STATUS_ZOMBIE`
and inspects nothing after it; `Except.error ()` is a Python exception
propagating out of the scan. -/
def is_running (name command : String) : List PyProc → Except Unit Bool
  | [] => .ok false
  | p :: rest =>
    match stepOutcome name command p with
    | .skip => is_running name command rest
    | .raise => .error ()
    | .matched => .ok (p.isRunningRes && decide (p.statusRes ≠ ProcStatus.zombie))

/-- `_process_method(name, command, "terminate")`: walks the pid list; on the
first matching process invokes `process.terminate()` and returns. The result
lists the pids whose `terminate()` was invoked and completed (`[]` when no
process matched, i.e. Python's implicit `None` return); `Except.error ()` is
an exception escaping the call, either from the attribute lookups or from
`terminate()` itself. -/
def process_method_terminate (name command : String) : List PyProc → Except Unit (List Nat)
  | [] => .ok []
  | p :: rest =>
    match stepOutcome name command p with
    | .skip => process_method_terminate name command rest
    | .raise => .error ()
    | .matched =>
      match p.terminateRes with
      | .error _ => .error ()
      | .ok _ => .ok [p.pid]

/-- `terminate()`:
```
_process_method("node", "kangas", "terminate")
_process_method("kangas", "server", "terminate")
```
returning the terminated pids of each pass; an exception in the first pass
propagates and the second pass never runs. -/
def terminate (procs : List PyProc) : Except Unit (List Nat × List Nat) :=
  match process_method_terminate "node" "kangas" procs with
  | .error e => .error e
  | .ok l1 =>
    match process_method_terminate "kangas" "server" procs with
    | .error e => .error e
    | .ok l2 => .ok (l1, l2)

/-- UTF-8 encoding of one code point, as the byte values CPython percent-
encodes when quoting a string. -/
def utf8Bytes (c : Char) : List Nat :=
  let n := c.toNat
  if n < 128 then [n]
  else if n < 2048 then [192 + n / 64, 128 + n % 64]
  else if n < 65536 then [224 + n / 4096, 128 + (n / 64) % 64, 128 + n % 64]
  else [240 + n / 262144, 128 + (n / 4096) % 64, 128 + (n / 64) % 64, 128 + n % 64]

/-- Uppercase hex digit, as `urllib.parse.quote` emits. -/
def hexDigit (n : Nat) : Char :=
  if n < 10 then Char.ofNat (48 + n) else Char.ofNat (55 + n)

/-- The bytes `urllib.parse` never quotes (`ALWAYS_SAFE`): ASCII letters,
digits, and `_ . - ~`. -/
def alwaysSafe (b : Nat) : Bool :=
  (65 ≤ b && b ≤ 90) || (97 ≤ b && b ≤ 122) || (48 ≤ b && b ≤ 57) ||
    b == 95 || b == 46 || b == 45 || b == 126

/-- `urllib.parse.quote_plus`: safe bytes pass through, a space becomes `+`,
every other byte becomes `%XX` with uppercase hex. -/
def quote_plus (s : String) : String :=
  String.mk ((s.toList.flatMap utf8Bytes).flatMap fun b =>
    if alwaysSafe b then [Char.ofNat b]
    else if b == 32 then ['+']
    else ['%', hexDigit (b / 16), hexDigit (b % 16)])

/-- `urllib.parse.urlencode` over an association list (the insertion-ordered
dict of the source), using `quote_plus` on keys and values as CPython does
by default. -/
def urlencode (kvs : List (String × String)) : String :=
  String.intercalate "&" (kvs.map fun kv => quote_plus kv.1 ++ "=" ++ quote_plus kv.2)

/-- Python truthiness of the `datagrid` argument (`if datagrid:`): `None`
and the empty string are falsy. -/
def pyTruthy : Option String → Bool
  | none => false
  | some s => s ≠ ""

/-- The URL-building block of `show`:
```
if datagrid:
    query_vars = {"datagrid": datagrid}
    qvs = "?" + urllib.parse.urlencode(query_vars)
    url = "%s%s" % (url, qvs)
else:
    qvs = ""
```
returns the final `url` and `qvs`. -/
def buildShowUrl (datagrid : Option String) (url : String) : String × String :=
  if pyTruthy datagrid then
    let qvs := "?" ++ urlencode [("datagrid", datagrid.getD "")]
    (url ++ qvs, qvs)
  else (url, "")

/-- The ambient collaborators `launch` and `show` consult:
`get_localhost()`, `_in_colab_environment()`, `_in_jupyter_environment()`
from `kangas.utils`, `sys.executable`, the proxy URL string the Colab
kernel returns for `proxyPort(port + 1)`, and the value of the module-level
global `KANGAS_BACKEND_PROXY` when the call starts. -/
structure Env where
  localhost : String
  inColab : Bool
  inJupyter : Bool
  colabProxyToken : String
  sysExecutable : String
  backendProxy0 : Option String

/-- Observable effects of one `launch` call, in program order. -/
inductive Ev
  | terminateCall
  | acquireProxy (port : Nat)
  | spawn (args : List String)
  | sleep (secs : Nat)
  deriving DecidableEq, Repr

/-- What a `launch` call produces: its effect trace, the returned URL, and
the value of the `KANGAS_BACKEND_PROXY` global afterwards. -/
structure LaunchOut where
  events : List Ev
  url : String
  backendProxy : Option String
  deriving DecidableEq, Repr

/-- The argument vector handed to `subprocess.Popen` by `launch`. After
`host = host if host is not None else get_localhost()` the host is a
concrete string (the resolver returns one), so the code's
`["--host", host] if host is not None` guard always fires. -/
def spawnArgs (exe : String) (port : Nat) (host : String)
    (proxy : Option String) (debug : Bool) : List String :=
  [exe, "-m", "kangas.cli.server",
   "--frontend-port", toString port,
   "--backend-port", toString (port + 1),
   "--open", "no"]
  ++ ["--host", host]
  ++ (match proxy with
      | some t => ["--backend-proxy", t]
      | none => [])
  ++ (if debug then ["--debug"] else [])

/-- `launch(host, port, debug)`. `running` is the result of the
`_is_running("node", "kangas")` check (the scan itself is modelled by
`is_running`). When the pair is not running the call terminates stale
instances, in Colab acquires a proxy token for `port + 1` into the
`KANGAS_BACKEND_PROXY` global, spawns the server with `spawnArgs`, and
sleeps 2 seconds; in every case it returns `http://{host}:{port}/`. -/
def launch (hostArg : Option String) (port : Nat) (debug : Bool)
    (env : Env) (running : Bool) : LaunchOut :=
  let host := hostArg.getD env.localhost
  let url := "http://" ++ host ++ ":" ++ toString port ++ "/"
  if running then
    { events := [], url := url, backendProxy := env.backendProxy0 }
  else
    let proxy := if env.inColab then some env.colabProxyToken else env.backendProxy0
    { events :=
        [Ev.terminateCall]
        ++ (if env.inColab then [Ev.acquireProxy (port + 1)] else [])
        ++ [Ev.spawn (spawnArgs env.sysExecutable port host proxy debug), Ev.sleep 2],
      url := url,
      backendProxy := proxy }

/-- The display action `show` ends with, one per branch of its
`if _in_colab_environment(): ... elif _in_jupyter_environment(): ... else:`
dispatch. The Colab branch records the port passed to
`google.colab.kernel.proxyPort(...)` in the injected script and the
`qvs`/`width`/`height` the script splices into the iframe; the Jupyter
branch is `IFrame(src=url, width=width, height=height)`; the final branch is
`webbrowser.open(url, autoraise=True)`. -/
inductive ShowAction
  | colabFrame (proxyPort : Nat) (qvs width height : String)
  | jupyterFrame (src width height : String)
  | browserOpen (url : String) (autoraise : Bool)
  deriving DecidableEq, Repr

/-- The `src` the Colab-injected script assigns to the created iframe:
`fm.src = (await google.colab.kernel.proxyPort(port)) + qvs`. -/
def colabFrameSrc (proxyUrl qvs : String) : String := proxyUrl ++ qvs

/-- The display dispatch at the end of `show`. -/
def show_dispatch (env : Env) (port : Nat) (url qvs width height : String) : ShowAction :=
  if env.inColab then .colabFrame port qvs width height
  else if env.inJupyter then .jupyterFrame url width height
  else .browserOpen url true

/-- `show(datagrid, host, port, debug, height, width)`: launches (or finds
running) the pair, builds the URL and query string, and dispatches the
display. Returns the launch outcome and the display action. -/
def show_model (datagrid : Option String) (hostArg : Option String) (port : Nat)
    (debug : Bool) (height width : String) (env : Env) (running : Bool) :
    LaunchOut × ShowAction :=
  let out := launch hostArg port debug env running
  let uq := buildShowUrl datagrid out.url
  (out, show_dispatch env port uq.1 uq.2 width height)

/-- The spec's `ExecutionContext` variants. -/
inductive ExecutionContext
  | cloudNotebook
  | managedNotebook
  | plainHost
  deriving DecidableEq, Repr

/-- The spec's `EnvironmentDetector.detect()`, read off the branch order of
`show`'s dispatch: the Colab check first, then the Jupyter check, else a
plain host. -/
def detect (inColab inJupyter : Bool) : ExecutionContext :=
  if inColab then .cloudNotebook
  else if inJupyter then .managedNotebook
  else .plainHost

/-- `launch` together with its `_is_running("node", "kangas")` check over a
concrete process table: an exception escaping the scan escapes `launch`. -/
def launch_scan (hostArg : Option String) (port : Nat) (debug : Bool)
    (env : Env) (procs : List PyProc) : Except Unit LaunchOut :=
  match is_running "node" "kangas" procs with
  | .error e => .error e
  | .ok b => .ok (launch hostArg port debug env b)

/-- Sample process: pid 1, a live `node ... kangas ...` server, terminable. -/
def pMatch1 : PyProc :=
  ⟨1, true, .ok "node", .ok ["node", "kangas-server"], true, .running, .ok ()⟩

/-- Sample process: pid 2, a second live `node ... kangas ...` server. -/
def pMatch2 : PyProc :=
  ⟨2, true, .ok "node", .ok ["node", "kangas-server"], true, .running, .ok ()⟩

/-- Sample process: pid 3, a live match whose `terminate()` raises
(access denied). -/
def pTermFail : PyProc :=
  ⟨3, true, .ok "node", .ok ["node", "kangas-server"], true, .running, .error ()⟩

/-- Sample process: pid 4, vanished before `psutil.Process(pid)` — the
constructor raises. -/
def pCtorFail : PyProc :=
  ⟨4, false, .error (), .error (), false, .dead, .error ()⟩

/-- Sample process: pid 5, handle constructed but `process.name()` raises
(access denied / exited mid-scan). -/
def pNameFail : PyProc :=
  ⟨5, true, .error (), .ok [], true, .running, .ok ()⟩

/-- Sample process: pid 8, handle constructed and `process.name()` matching
the probe, but `process.cmdline()` raises (access denied / exited between
the name lookup and the command-line lookup). -/
def pCmdFail : PyProc :=
  ⟨8, true, .ok "node", .error (), true, .running, .ok ()⟩

/-- Sample process: pid 6, executable name starts with `node` but command
line does not contain `kangas`. -/
def pNonCmd : PyProc :=
  ⟨6, true, .ok "node", .ok ["node", "something-else"], true, .running, .ok ()⟩

/-- Sample process: pid 7, a matching process in zombie state
(psutil `is_running()` still reports true for a zombie). -/
def pZombie : PyProc :=
  ⟨7, true, .ok "node", .ok ["node", "kangas"], true, .zombie, .ok ()⟩

/-- Sample environment: a Colab notebook kernel. -/
def envColab : Env :=
  ⟨"127.0.0.1", true, false, "https://colab-proxy/", "python3", none⟩

/-- Sample environment: a plain host, no notebook. -/
def envPlain : Env :=
  ⟨"127.0.0.1", false, false, "https://colab-proxy/", "python3", none⟩

/-- A successful `_process_method(..., "terminate")` pass invokes
`terminate()` on at most one process: the loop returns at the first match. -/
theorem pm_terminate_length_le_one (name command : String) :
    ∀ procs l, process_method_terminate name command procs = Except.ok l →
      l.length ≤ 1 := by
  intro procs
  induction procs with
  | nil =>
    intro l h
    simp only [process_method_terminate] at h
    injection h with h2
    simp [← h2]
  | cons p rest ih =>
    intro l h
    simp only [process_method_terminate] at h
    cases hstep : stepOutcome name command p with
    | skip => rw [hstep] at h; exact ih l h
    | raise => rw [hstep] at h; simp at h
    | matched =>
      rw [hstep] at h
      cases ht : p.terminateRes with
      | error e => rw [ht] at h; simp at h
      | ok u =>
        rw [ht] at h
        injection h with h2
        simp [← h2]

/-- When every process of the table is skipped by the loop body, a
`_process_method(..., "terminate")` pass terminates nothing and returns
normally. -/
theorem pm_terminate_all_skip (name command : String) (procs : List PyProc)
    (h : ∀ p ∈ procs, stepOutcome name command p = StepOutcome.skip) :
    process_method_terminate name command procs = Except.ok [] := by
  induction procs with
  | nil => rfl
  | cons p rest ih =>
    have hp := h p (List.mem_cons_self p rest)
    simp only [process_method_terminate, hp]
    exact ih fun q hq => h q (List.mem_cons_of_mem _ hq)

/-- C1 counterexample: pids 1 and 2 are both live processes matching probe
`("node", "kangas")`, yet `terminate()` invokes termination only on pid 1
(the result lists exactly the invoked pids); and a matching process whose
`terminate()` raises is not silently skipped — the exception escapes
`terminate()`. -/
theorem terminate_not_every_match :
    stepOutcome "node" "kangas" pMatch1 = StepOutcome.matched ∧
    stepOutcome "node" "kangas" pMatch2 = StepOutcome.matched ∧
    pMatch1.isRunningRes = true ∧ pMatch2.isRunningRes = true ∧
    pMatch2.pid = 2 ∧
    terminate [pMatch1, pMatch2] = Except.ok ([1], []) ∧
    terminate [pTermFail] = Except.error () := by
  decide

/-- C1 amended: `terminate()` invokes termination on at most one process per
probe — the first match in pid-enumeration order; an exception raised while
terminating a matching process propagates instead of being skipped; and
calling `terminate()` with zero matching processes is a no-op that returns
without error. -/
theorem terminate_first_match_only (procs : List PyProc) :
    (∀ l, terminate procs = Except.ok l → l.1.length ≤ 1 ∧ l.2.length ≤ 1)
    ∧ ((∀ p ∈ procs, stepOutcome "node" "kangas" p = StepOutcome.skip) →
        (∀ p ∈ procs, stepOutcome "kangas" "server" p = StepOutcome.skip) →
        terminate procs = Except.ok ([], []))
    ∧ (∀ p rest, stepOutcome "node" "kangas" p = StepOutcome.matched →
        p.terminateRes = Except.error () →
        terminate (p :: rest) = Except.error ()) := by
  refine ⟨?_, ?_, ?_⟩
  · intro l h
    unfold terminate at h
    cases h1 : process_method_terminate "node" "kangas" procs with
    | error e => rw [h1] at h; simp at h
    | ok l1 =>
      rw [h1] at h
      cases h2 : process_method_terminate "kangas" "server" procs with
      | error e => rw [h2] at h; simp at h
      | ok l2 =>
        rw [h2] at h
        injection h with h3
        rw [← h3]
        exact ⟨pm_terminate_length_le_one "node" "kangas" procs l1 h1,
               pm_terminate_length_le_one "kangas" "server" procs l2 h2⟩
  · intro h1 h2
    unfold terminate
    rw [pm_terminate_all_skip "node" "kangas" procs h1,
        pm_terminate_all_skip "kangas" "server" procs h2]
  · intro p rest h1 h2
    unfold terminate
    simp [process_method_terminate, h1, h2]

/-- C1 witness: with no matching process at all `terminate()` is a no-op
returning without error, and with a matching process whose `terminate()`
raises the exception propagates. -/
theorem terminate_first_match_only_witness :
    terminate [pCtorFail] = Except.ok ([], []) ∧
    terminate [pTermFail] = Except.error () := by
  constructor
  · exact (terminate_first_match_only [pCtorFail]).2.1 (by decide) (by decide)
  · exact (terminate_first_match_only [pTermFail]).2.2 pTermFail [] (by decide) (by decide)

/-- C2 counterexample: a process whose handle is constructed but whose
`name()` lookup fails (access denied / exited between construction and
lookup) makes the whole scan abort with an error, in both `_is_running` and
`_process_method`, and so does a `cmdline()` failure after a matching name —
the failure is not swallowed, because the `try` block covers only
`psutil.Process(pid)`. -/
theorem scan_aborts_on_lookup_failure :
    pNameFail.ctorOk = true ∧
    is_running "node" "kangas" [pNameFail] = Except.error () ∧
    process_method_terminate "node" "kangas" [pNameFail] = Except.error () ∧
    pCmdFail.ctorOk = true ∧
    is_running "node" "kangas" [pCmdFail] = Except.error () ∧
    process_method_terminate "node" "kangas" [pCmdFail] = Except.error () := by
  decide

/-- C2 amended: only a failure raised while constructing the process handle
(`psutil.Process(pid)`) is swallowed, skipping exactly that process, in both
`_is_running` and `_process_method`; a lookup failure on a constructed
handle — in `name()`, or in `cmdline()` once the name prefix matched —
propagates and aborts the scan, again in both `_is_running` and
`_process_method`. -/
theorem scan_ctor_failure_skipped (name command : String) (p : PyProc)
    (procs : List PyProc) :
    (p.ctorOk = false →
      is_running name command (p :: procs) = is_running name command procs
      ∧ process_method_terminate name command (p :: procs)
          = process_method_terminate name command procs)
    ∧ (p.ctorOk = true → p.nameRes = Except.error () →
        is_running name command (p :: procs) = Except.error ()
        ∧ process_method_terminate name command (p :: procs) = Except.error ())
    ∧ (∀ nm, p.ctorOk = true → p.nameRes = Except.ok nm →
        strStartsWith nm name = true → p.cmdlineRes = Except.error () →
        is_running name command (p :: procs) = Except.error ()
        ∧ process_method_terminate name command (p :: procs) = Except.error ()) := by
  refine ⟨?_, ?_, ?_⟩
  · intro h
    constructor
    · simp [is_running, stepOutcome, h]
    · simp [process_method_terminate, stepOutcome, h]
  · intro h1 h2
    constructor
    · simp [is_running, stepOutcome, h1, h2]
    · simp [process_method_terminate, stepOutcome, h1, h2]
  · intro nm h1 h2 h3 h4
    constructor
    · simp [is_running, stepOutcome, h1, h2, h3, h4]
    · simp [process_method_terminate, stepOutcome, h1, h2, h3, h4]

/-- C2 witness: a pid whose handle construction raises is skipped by both
scans (each scan over just it equals the empty scan); a constructed handle
whose `name()` raises aborts both scans; and a constructed handle with a
matching name whose `cmdline()` raises also aborts both scans. -/
theorem scan_ctor_failure_skipped_witness :
    (is_running "node" "kangas" [pCtorFail] = is_running "node" "kangas" []
      ∧ process_method_terminate "node" "kangas" [pCtorFail]
          = process_method_terminate "node" "kangas" [])
    ∧ (is_running "node" "kangas" [pNameFail] = Except.error ()
      ∧ process_method_terminate "node" "kangas" [pNameFail] = Except.error ())
    ∧ (is_running "node" "kangas" [pCmdFail] = Except.error ()
      ∧ process_method_terminate "node" "kangas" [pCmdFail] = Except.error ()) := by
  refine ⟨?_, ?_, ?_⟩
  · exact (scan_ctor_failure_skipped "node" "kangas" pCtorFail []).1 (by decide)
  · exact (scan_ctor_failure_skipped "node" "kangas" pNameFail []).2.1
      (by decide) (by decide)
  · exact (scan_ctor_failure_skipped "node" "kangas" pCmdFail []).2.2 "node"
      (by decide) (by decide) (by decide) (by decide)

/-- C7: `_is_running` returns false when the scanned process's command line
does not contain the probe's command substring even though its name starts
with the name probe, and returns false when the matching process is a
zombie. -/
theorem is_running_false_nonsubstring_zombie (name command : String)
    (p q : PyProc) (nm : String) (cl : List String) :
    (p.ctorOk = true → p.nameRes = Except.ok nm → strStartsWith nm name = true →
      p.cmdlineRes = Except.ok cl →
      strContains (String.intercalate " " cl) command = false →
      is_running name command [p] = Except.ok false)
    ∧ (stepOutcome name command q = StepOutcome.matched →
        q.statusRes = ProcStatus.zombie →
        is_running name command [q] = Except.ok false) := by
  constructor
  · intro h1 h2 h3 h4 h5
    simp [is_running, stepOutcome, h1, h2, h3, h4, h5]
  · intro h1 h2
    simp [is_running, h1, h2]

/-- C7 witness: a live `node` process without `kangas` in its command line
does not count as running, and a zombie `node ... kangas` process does not
count as running. -/
theorem is_running_false_nonsubstring_zombie_witness :
    is_running "node" "kangas" [pNonCmd] = Except.ok false
    ∧ is_running "node" "kangas" [pZombie] = Except.ok false := by
  constructor
  · exact (is_running_false_nonsubstring_zombie "node" "kangas" pNonCmd pZombie
      "node" ["node", "something-else"]).1
      (by decide) (by decide) (by decide) (by decide) (by decide)
  · exact (is_running_false_nonsubstring_zombie "node" "kangas" pNonCmd pZombie
      "node" ["node", "something-else"]).2 (by decide) (by decide)

/-- C10: the scan decides at the first process (in pid-enumeration order)
that matches name prefix and command substring: it returns that process's
liveness-and-not-zombie status and never examines anything after it. -/
theorem is_running_first_match_decides (name command : String)
    (pre : List PyProc) (p : PyProc) (rest : List PyProc)
    (hpre : ∀ q ∈ pre, stepOutcome name command q = StepOutcome.skip)
    (hp : stepOutcome name command p = StepOutcome.matched) :
    is_running name command (pre ++ p :: rest)
      = Except.ok (p.isRunningRes && decide (p.statusRes ≠ ProcStatus.zombie)) := by
  induction pre with
  | nil => simp [is_running, hp]
  | cons q pre ih =>
    have hq := hpre q (List.mem_cons_self q pre)
    have h2 : ∀ r ∈ pre, stepOutcome name command r = StepOutcome.skip :=
      fun r hr => hpre r (List.mem_cons_of_mem _ hr)
    simp only [List.cons_append, is_running, hq]
    exact ih h2

/-- C10 witness: with a zombie match first and a live match after it, the
scan reports not running — the later live match is never examined. -/
theorem is_running_first_match_decides_witness :
    is_running "node" "kangas" [pZombie, pMatch1] = Except.ok false
    ∧ stepOutcome "node" "kangas" pMatch1 = StepOutcome.matched
    ∧ pMatch1.isRunningRes = true := by
  refine ⟨?_, by decide, by decide⟩
  exact (is_running_first_match_decides "node" "kangas" [] pZombie [pMatch1]
    (by simp) (by decide)).trans (by decide)

/-- C3 counterexample: in the Colab branch of `show`, the injected script
requests `google.colab.kernel.proxyPort(port)` for the *frontend* port
(4000 here), not the backend port `port + 1` (4001) the claim names. -/
theorem colab_proxies_frontend_port_cex :
    (show_model (some "./example.dg") none 4000 false "750px" "100%" envColab true).2
      = ShowAction.colabFrame 4000 "?datagrid=.%2Fexample.dg" "100%" "750px"
    ∧ (4000 : Nat) ≠ 4000 + 1 := by
  decide

/-- C3 amended: in the CloudNotebook context `show` requests a proxied URL
for the *frontend* port and points the injected frame, sized width by
height, at that proxied URL with the query string appended. -/
theorem colab_frame_frontend_port (datagrid hostArg : Option String)
    (port : Nat) (debug : Bool) (height width : String) (env : Env)
    (running : Bool) (hc : env.inColab = true) :
    (show_model datagrid hostArg port debug height width env running).2
      = ShowAction.colabFrame port
          (buildShowUrl datagrid (launch hostArg port debug env running).url).2
          width height
    ∧ ∀ proxyUrl qvs, colabFrameSrc proxyUrl qvs = proxyUrl ++ qvs := by
  constructor
  · simp [show_model, show_dispatch, hc]
  · intro u q
    rfl

/-- C3 witness: a concrete Colab `show` call emits the frame request against
the frontend port with the encoded query string. -/
theorem colab_frame_frontend_port_witness :
    (show_model (some "./example.dg") none 4000 false "750px" "100%" envColab true).2
      = ShowAction.colabFrame 4000
          (buildShowUrl (some "./example.dg")
            (launch none 4000 false envColab true).url).2 "100%" "750px" :=
  (colab_frame_frontend_port (some "./example.dg") none 4000 false "750px" "100%"
    envColab true (by decide)).1

/-- C4: when the `_is_running("node", "kangas")` scan reports the pair as
running, `launch` performs no effect at all (no terminate call, no proxy
acquisition, no spawn, no sleep: the event trace is empty) and returns
`http://{host}:{port}/` with the global proxy variable untouched. -/
theorem launch_running_noop (hostArg : Option String) (port : Nat)
    (debug : Bool) (env : Env) (procs : List PyProc)
    (h : is_running "node" "kangas" procs = Except.ok true) :
    launch_scan hostArg port debug env procs
      = Except.ok
          { events := [],
            url := "http://" ++ hostArg.getD env.localhost ++ ":" ++ toString port ++ "/",
            backendProxy := env.backendProxy0 } := by
  simp [launch_scan, h, launch]

/-- C4 witness: with a live matching pair in the process table, a concrete
`launch` spawns nothing, terminates nothing, and returns the URL. -/
theorem launch_running_noop_witness :
    launch_scan (some "localhost") 4000 false envPlain [pMatch1]
      = Except.ok { events := [], url := "http://localhost:4000/", backendProxy := none } := by
  exact (launch_running_noop (some "localhost") 4000 false envPlain [pMatch1]
    (by decide)).trans (by decide)

/-- C5: when `launch` observes no running pair, its first effect is the
`terminate()` call and the spawn happens strictly later in the trace. -/
theorem launch_terminate_before_spawn (hostArg : Option String) (port : Nat)
    (debug : Bool) (env : Env) :
    ((launch hostArg port debug env false).events).head? = some Ev.terminateCall
    ∧ ∃ i args, ((launch hostArg port debug env false).events)[i]?
        = some (Ev.spawn args) ∧ 0 < i := by
  by_cases hc : env.inColab
  · refine ⟨by simp [launch, hc], 2,
      spawnArgs env.sysExecutable port (hostArg.getD env.localhost)
        (some env.colabProxyToken) debug, ?_, by decide⟩
    simp [launch, hc]
  · refine ⟨by simp [launch, hc], 1,
      spawnArgs env.sysExecutable port (hostArg.getD env.localhost)
        env.backendProxy0 debug, ?_, by decide⟩
    simp [launch, hc]

/-- Position 5/6 of the spawned argument vector is always the
`--backend-port` flag with value `port + 1`. -/
theorem spawnArgs_backend_port (exe : String) (port : Nat) (host : String)
    (proxy : Option String) (debug : Bool) :
    (spawnArgs exe port host proxy debug)[5]? = some "--backend-port"
    ∧ (spawnArgs exe port host proxy debug)[6]? = some (toString (port + 1)) := by
  constructor <;> rfl

/-- C6: every backend port `launch` constructs or communicates equals
`port + 1`: any proxy acquisition in the trace is for `port + 1`, and any
spawned argument vector carries `--backend-port` (at its fixed position 5)
with value `port + 1`. -/
theorem backend_port_plus_one (hostArg : Option String) (port : Nat)
    (debug : Bool) (env : Env) (running : Bool) :
    (∀ p, Ev.acquireProxy p ∈ (launch hostArg port debug env running).events →
        p = port + 1)
    ∧ (∀ args, Ev.spawn args ∈ (launch hostArg port debug env running).events →
        args[5]? = some "--backend-port"
        ∧ args[6]? = some (toString (port + 1))) := by
  cases running with
  | true =>
    constructor
    · intro p hp
      simp [launch] at hp
    · intro args hargs
      simp [launch] at hargs
  | false =>
    by_cases hc : env.inColab
    · constructor
      · intro p hp
        simp [launch, hc] at hp
        exact hp
      · intro args hargs
        simp [launch, hc] at hargs
        rw [hargs]
        exact spawnArgs_backend_port env.sysExecutable port
          (hostArg.getD env.localhost) (some env.colabProxyToken) debug
    · constructor
      · intro p hp
        simp [launch, hc] at hp
      · intro args hargs
        simp [launch, hc] at hargs
        rw [hargs]
        exact spawnArgs_backend_port env.sysExecutable port
          (hostArg.getD env.localhost) env.backendProxy0 debug

/-- C6 witness: a concrete Colab launch acquires the proxy for 4001 = 4000+1
and its spawn arguments carry `--backend-port 4001`. -/
theorem backend_port_plus_one_witness :
    (4001 : Nat) = 4000 + 1
    ∧ ((spawnArgs "python3" 4000 "127.0.0.1" (some "https://colab-proxy/") false)[5]?
        = some "--backend-port"
      ∧ (spawnArgs "python3" 4000 "127.0.0.1" (some "https://colab-proxy/") false)[6]?
        = some (toString (4000 + 1))) := by
  constructor
  · exact (backend_port_plus_one none 4000 false envColab false).1 4001 (by decide)
  · exact (backend_port_plus_one none 4000 false envColab false).2
      (spawnArgs "python3" 4000 "127.0.0.1" (some "https://colab-proxy/") false)
      (by decide)

/-- C8: the environment dispatch yields exactly one of the three contexts,
the Colab check takes precedence when both notebook markers are present, and
`show`'s branch structure refines `detect`: each context selects exactly its
display channel. -/
theorem detect_one_of_three_colab_precedence :
    (∀ c j, detect c j = ExecutionContext.cloudNotebook
        ∨ detect c j = ExecutionContext.managedNotebook
        ∨ detect c j = ExecutionContext.plainHost)
    ∧ detect true true = ExecutionContext.cloudNotebook
    ∧ (∀ env port url qvs width height,
        show_dispatch env port url qvs width height
          = match detect env.inColab env.inJupyter with
            | ExecutionContext.cloudNotebook => ShowAction.colabFrame port qvs width height
            | ExecutionContext.managedNotebook => ShowAction.jupyterFrame url width height
            | ExecutionContext.plainHost => ShowAction.browserOpen url true) := by
  refine ⟨?_, rfl, ?_⟩
  · intro c j
    cases c <;> cases j <;> simp [detect]
  · intro env port url qvs width height
    cases hc : env.inColab <;> cases hj : env.inJupyter <;>
      simp [show_dispatch, detect, hc, hj]

/-- C9: with host `localhost` and port 4000 `launch` returns
`http://localhost:4000/`, and `show` with `datagrid="./example.dg"` builds
`http://localhost:4000/?datagrid=.%2Fexample.dg`, the query string
URL-encoded. -/
theorem url_scenario (debug : Bool) (env : Env) (running : Bool) :
    (launch (some "localhost") 4000 debug env running).url = "http://localhost:4000/"
    ∧ buildShowUrl (some "./example.dg")
        (launch (some "localhost") 4000 debug env running).url
      = ("http://localhost:4000/?datagrid=.%2Fexample.dg", "?datagrid=.%2Fexample.dg") := by
  have hu : (launch (some "localhost") 4000 debug env running).url
      = "http://localhost:4000/" := by
    cases running <;> simp [launch] <;> decide
  refine ⟨hu, ?_⟩
  rw [hu]
  decide

end Kangas
